import Mathlib

/-!
Shallow embedding of the MCP-Tavily dashboard core (`src/app.js`).

Modelling conventions:
* A network response is abstracted as a `NetResult`: either a transport error
  (the JS `fetch` promise rejecting, or `response.json()` throwing) or a
  response carrying its `ok` flag and the parsed JSON body.
* The JS data-fetching functions are embedded as total Lean functions that
  also return the number of network requests issued, so that "zero network
  calls" is a provable statement.  Totality of the Lean function reflects the
  fact that every failure path is caught inside the JS function.
* `success_rate` is a decimal number in the source (e.g. `99.2`); it is
  represented here in tenths of a percent (`992`) to stay in exact arithmetic.
  Only its ordering is ever used.
* `Array.prototype.sort` with a consistent comparator is, per the ECMAScript
  spec, the unique stable sort for that comparator; it is embedded as
  `List.insertionSort`, which is stable and computes the same function.
* `localeCompare` on the plain ASCII tool names is embedded as the
  lexicographic order on strings.
-/

-- ===========================================================================
-- Data model (§3 of the spec, mirrors the JSON field names in src/app.js)
-- ===========================================================================

structure Metrics where
  server_status : String
  uptime_hours : Nat
  total_connections : Nat
  active_connections : Nat
  total_requests : Nat
  successful_requests : Nat
  failed_requests : Nat
  average_response_time : Nat
  tools_available : Nat
  redis_status : String
  redis_latency : Nat
deriving DecidableEq, Repr

structure Connection where
  id : String
  connected_at : String
  duration_seconds : Nat
  status : String
  tools_used : List String
deriving DecidableEq, Repr

structure Tool where
  name : String
  description : String
  call_count : Nat
  success_rate : Nat   -- tenths of a percent: 99.2% is stored as 992
  avg_response_time : Nat
deriving DecidableEq, Repr

structure LogEntry where
  timestamp : String
  level : String
  message : String
deriving DecidableEq, Repr

/-- The configuration slice of the JS `AppState` global that the embedded
functions read and write. -/
structure AppState where
  apiEndpoint : String
  refreshRate : Nat
  autoRefresh : Bool
  demoMode : Bool
deriving DecidableEq, Repr

-- ===========================================================================
-- Mock data (`MockData` in src/app.js)
-- ===========================================================================

namespace MockData

def metrics : Metrics :=
  { server_status := "online"
    uptime_hours := 24
    total_connections := 156
    active_connections := 3
    total_requests := 2843
    successful_requests := 2756
    failed_requests := 87
    average_response_time := 245
    tools_available := 12
    redis_status := "connected"
    redis_latency := 2 }

def connections : List Connection :=
  [ { id := "conn_001", connected_at := "2025-11-01T10:15:32Z",
      duration_seconds := 3600, status := "connected",
      tools_used := ["tavily-search", "web-scrape"] },
    { id := "conn_002", connected_at := "2025-11-01T10:30:15Z",
      duration_seconds := 1800, status := "disconnected",
      tools_used := ["tavily-search"] },
    { id := "conn_003", connected_at := "2025-11-01T10:45:22Z",
      duration_seconds := 900, status := "connected",
      tools_used := ["web-scrape"] } ]

def tools : List Tool :=
  [ { name := "tavily-search", description := "Web search using Tavily API",
      call_count := 1203, success_rate := 992, avg_response_time := 215 },
    { name := "web-scrape", description := "Extract content from web pages",
      call_count := 542, success_rate := 978, avg_response_time := 312 } ]

def logs : List LogEntry :=
  [ { timestamp := "2025-11-01T10:45:22Z", level := "INFO",
      message := "New connection established: conn_003" },
    { timestamp := "2025-11-01T10:44:15Z", level := "INFO",
      message := "Tool execution: tavily-search (215ms)" },
    { timestamp := "2025-11-01T10:43:01Z", level := "WARNING",
      message := "High response time detected: 1200ms" },
    { timestamp := "2025-11-01T10:42:33Z", level := "INFO",
      message := "Redis ping successful (2ms)" } ]

end MockData

-- ===========================================================================
-- Data source adapter (fetchMetrics / fetchConnections / fetchTools /
-- fetchLogs / checkHealth in src/app.js)
-- ===========================================================================

/-- Outcome of one `fetch` call: either the promise rejects (network error /
body parsing error), or a response arrives with its `ok` flag and parsed
body. -/
inductive NetResult (α : Type) where
  | transportError (msg : String) : NetResult α
  | response (ok : Bool) (body : α) : NetResult α
deriving DecidableEq, Repr

/-- The `try` block shared by the four fetch functions:
`if (!response.ok) throw new Error('API request failed'); return await
response.json();`. -/
def fetchBody {α : Type} (net : NetResult α) : Except String α :=
  match net with
  | .transportError msg => .error msg
  | .response ok body => if ok then .ok body else .error "API request failed"

/-- `true` exactly when the request fails: transport error or non-success
HTTP status. -/
def netFailed {α : Type} (net : NetResult α) : Bool :=
  match net with
  | .transportError _ => true
  | .response ok _ => !ok

/-- `fetchMetrics` from src/app.js.  Returns the produced value together with
the number of network requests issued. -/
def fetchMetrics (st : AppState) (net : NetResult Metrics) : Metrics × Nat :=
  if st.demoMode then (MockData.metrics, 0)
  else
    match fetchBody net with
    | .ok v => (v, 1)
    | .error _ => (MockData.metrics, 1)   -- catch: warn and fall back to mock

/-- `fetchConnections` from src/app.js. -/
def fetchConnections (st : AppState) (net : NetResult (List Connection)) :
    List Connection × Nat :=
  if st.demoMode then (MockData.connections, 0)
  else
    match fetchBody net with
    | .ok v => (v, 1)
    | .error _ => (MockData.connections, 1)

/-- `fetchTools` from src/app.js. -/
def fetchTools (st : AppState) (net : NetResult (List Tool)) :
    List Tool × Nat :=
  if st.demoMode then (MockData.tools, 0)
  else
    match fetchBody net with
    | .ok v => (v, 1)
    | .error _ => (MockData.tools, 1)

/-- `fetchLogs` from src/app.js. -/
def fetchLogs (st : AppState) (net : NetResult (List LogEntry)) :
    List LogEntry × Nat :=
  if st.demoMode then (MockData.logs, 0)
  else
    match fetchBody net with
    | .ok v => (v, 1)
    | .error _ => (MockData.logs, 1)

/-- The structured result of `checkHealth`: `{success, responseTime?, data?,
error?}`.  Absent JS keys are `none`. -/
structure HealthResult (α : Type) where
  success : Bool
  responseTime : Option Nat
  data : Option α
  error : Option String
deriving DecidableEq, Repr

/-- `checkHealth` from src/app.js.  `net` is the network environment mapping a
URL to its outcome; `elapsed` is the measured `Date.now()` difference. -/
def checkHealth {α : Type} (endpoint : String) (net : String → NetResult α)
    (elapsed : Nat) : HealthResult α :=
  match net (endpoint ++ "/health") with
  | .transportError msg =>
      { success := false, responseTime := none, data := none, error := some msg }
  | .response ok body =>
      if ok then
        { success := true, responseTime := some elapsed, data := some body,
          error := none }
      else
        { success := false, responseTime := none, data := none,
          error := some "Health check failed" }

-- ===========================================================================
-- Filter/sort pipeline (updateConnectionsTable / updateToolsGrid /
-- updateLogsContainer in src/app.js), data half only
-- ===========================================================================

/-- Comparator `(a, b) => b.call_count - a.call_count`: `a` sorts no later
than `b` when its call count is at least as large. -/
def callsLe (a b : Tool) : Prop := b.call_count ≤ a.call_count

/-- Comparator `(a, b) => a.name.localeCompare(b.name)` on ASCII names:
lexicographic order (stated on the character lists so that it evaluates in
the kernel). -/
def nameLe (a b : Tool) : Prop := a.name.toList ≤ b.name.toList

/-- Comparator `(a, b) => b.success_rate - a.success_rate`. -/
def successLe (a b : Tool) : Prop := b.success_rate ≤ a.success_rate

instance : DecidableRel callsLe :=
  fun a b => inferInstanceAs (Decidable (b.call_count ≤ a.call_count))

instance : DecidableRel nameLe :=
  fun a b => inferInstanceAs (Decidable (a.name.toList ≤ b.name.toList))

instance : DecidableRel successLe :=
  fun a b => inferInstanceAs (Decidable (b.success_rate ≤ a.success_rate))

instance : IsTotal Tool callsLe :=
  ⟨fun a b => Nat.le_total b.call_count a.call_count⟩

instance : IsTrans Tool callsLe :=
  ⟨fun _ _ _ hab hbc => le_trans hbc hab⟩

instance : IsTotal Tool nameLe :=
  ⟨fun a b => le_total a.name.toList b.name.toList⟩

instance : IsTrans Tool nameLe := ⟨fun _ _ _ hab hbc => le_trans hab hbc⟩

instance : IsTotal Tool successLe :=
  ⟨fun a b => Nat.le_total b.success_rate a.success_rate⟩

instance : IsTrans Tool successLe :=
  ⟨fun _ _ _ hab hbc => le_trans hbc hab⟩

/-- The `switch (sortBy)` in `updateToolsGrid`.  JS `Array.prototype.sort`
with a consistent comparator is the stable sort for it, embedded here as
`List.insertionSort`.  An unrecognized `sortBy` leaves the copy unsorted. -/
def sortTools (sortBy : String) (tools : List Tool) : List Tool :=
  match sortBy with
  | "calls" => tools.insertionSort callsLe
  | "name" => tools.insertionSort nameLe
  | "success" => tools.insertionSort successLe
  | _ => tools

/-- The filtering step of `updateConnectionsTable`: keep connections whose
`status` equals the selected filter, or everything when the filter is
`"all"`. -/
def filterConnections (filter : String) (conns : List Connection) :
    List Connection :=
  if filter ≠ "all" then conns.filter (fun c => c.status == filter) else conns

/-- `sub` is a prefix of `l` (character-by-character). -/
def startsWithL : List Char → List Char → Bool
  | [], _ => true
  | _ :: _, [] => false
  | a :: as, b :: bs => a == b && startsWithL as bs

/-- `containsSub sub l`: some suffix of `l` starts with `sub`; this is JS
`String.prototype.includes` on the underlying character lists. -/
def containsSub (sub : List Char) : List Char → Bool
  | [] => sub.isEmpty
  | c :: tl => startsWithL sub (c :: tl) || containsSub sub tl

/-- JS `s.includes(sub)`. -/
def strContains (s sub : String) : Bool := containsSub sub.toList s.toList

/-- JS `s.toLowerCase()` (character-wise, as in the ASCII data at hand). -/
def lowerStr (s : String) : String := String.mk (s.toList.map Char.toLower)

/-- The filtering step of `updateLogsContainer`: the search box value is
lowercased when read (`.value.toLowerCase()`), then a level filter (unless
`"all"`) and a truthiness-guarded case-insensitive substring filter are
applied in sequence. -/
def filterLogs (levelFilter searchRaw : String) (logs : List LogEntry) :
    List LogEntry :=
  let searchTerm := lowerStr searchRaw
  let l1 :=
    if levelFilter ≠ "all" then
      logs.filter (fun lg => lg.level == levelFilter)
    else logs
  if searchTerm ≠ "" then
    l1.filter (fun lg => strContains (lowerStr lg.message) searchTerm)
  else l1

-- ===========================================================================
-- formatDuration (src/app.js lines 642-654)
-- ===========================================================================

/-- `formatDuration` from src/app.js, on whole non-negative seconds. -/
def formatDuration (seconds : Nat) : String :=
  let hours := seconds / 3600
  let minutes := (seconds % 3600) / 60
  let secs := seconds % 60
  if hours > 0 then s!"{hours}h {minutes}m"
  else if minutes > 0 then s!"{minutes}m {secs}s"
  else s!"{secs}s"

-- ===========================================================================
-- Auto-refresh scheduler (startAutoRefresh / stopAutoRefresh in src/app.js)
-- ===========================================================================

/-- The timer state: the browser's set of live interval timers (as ids), a
fresh-id counter standing for `setInterval`'s id allocation, and
`AppState.refreshInterval` (JS `null` is `none`; browser interval ids are
positive, so truthiness of the JS field coincides with `isSome`). -/
structure TimerWorld where
  liveTimers : List Nat
  nextId : Nat
  refreshInterval : Option Nat
deriving DecidableEq, Repr

/-- `clearInterval(id)`: removes the timer if it is live, no-op otherwise. -/
def clearTimer (id : Nat) (ts : List Nat) : List Nat :=
  ts.filter (fun t => t ≠ id)

/-- `startAutoRefresh` from src/app.js: clear any recorded timer, then, if
auto-refresh is enabled, schedule a new interval timer and record its id. -/
def startAutoRefresh (autoRefresh : Bool) (w : TimerWorld) : TimerWorld :=
  let w1 :=
    match w.refreshInterval with
    | some id => { w with liveTimers := clearTimer id w.liveTimers }
    | none => w
  if autoRefresh then
    { liveTimers := w1.liveTimers ++ [w1.nextId]
      nextId := w1.nextId + 1
      refreshInterval := some w1.nextId }
  else w1

/-- `stopAutoRefresh` from src/app.js: clear the recorded timer, if any, and
null the record. -/
def stopAutoRefresh (w : TimerWorld) : TimerWorld :=
  match w.refreshInterval with
  | some id =>
      { w with liveTimers := clearTimer id w.liveTimers,
               refreshInterval := none }
  | none => w

/-- Scheduler invariant: either no timer is live, or exactly one is live and
`AppState.refreshInterval` records its id.  (After `startAutoRefresh` with
auto-refresh disabled the record may point at an already-cleared id, which is
why the first disjunct does not constrain `refreshInterval`.) -/
def TimerInv (w : TimerWorld) : Prop :=
  w.liveTimers = [] ∨
    ∃ id, w.liveTimers = [id] ∧ w.refreshInterval = some id

-- ===========================================================================
-- Mutation model for the pipeline callers (C8): JS arrays as heap references
-- ===========================================================================

/-- A heap of JS arrays of `α`, addressed by allocation order. -/
abbrev Heap (α : Type) : Type := List (List α)

/-- Contents of the array at reference `r`. -/
def readRef {α : Type} (h : Heap α) (r : Nat) : List α := h.getD r []

/-- Allocate a fresh array (spread `[...a]`, or the result of `filter`). -/
def allocRef {α : Type} (h : Heap α) (v : List α) : Heap α × Nat :=
  (h ++ [v], h.length)

/-- Overwrite the array at `r` in place (JS in-place `sort`). -/
def writeRef {α : Type} (h : Heap α) (r : Nat) (v : List α) : Heap α :=
  h.set r v

/-- The data half of `updateToolsGrid` with the JS aliasing made explicit:
`let sortedTools = [...tools]` allocates a fresh array, then `.sort` mutates
that fresh array in place.  Returns the heap and the rendered array's
reference. -/
def updateToolsGridH (sortBy : String) (h : Heap Tool) (toolsRef : Nat) :
    Heap Tool × Nat :=
  let tools := readRef h toolsRef
  let p := allocRef h tools
  let h2 := writeRef p.1 p.2 (sortTools sortBy (readRef p.1 p.2))
  (h2, p.2)

/-- The data half of `updateConnectionsTable`: `filter` allocates a fresh
array; with filter `"all"` the rendered array is the input array itself. -/
def updateConnectionsTableH (filter : String) (h : Heap Connection)
    (ref : Nat) : Heap Connection × Nat :=
  let conns := readRef h ref
  if filter ≠ "all" then
    allocRef h (conns.filter (fun c => c.status == filter))
  else (h, ref)

/-- The data half of `updateLogsContainer`: each applied filter allocates a
fresh array; filters that are skipped keep the previous reference. -/
def updateLogsContainerH (levelFilter searchRaw : String) (h : Heap LogEntry)
    (ref : Nat) : Heap LogEntry × Nat :=
  let searchTerm := lowerStr searchRaw
  let logs := readRef h ref
  let p1 :=
    if levelFilter ≠ "all" then
      allocRef h (logs.filter (fun lg => lg.level == levelFilter))
    else (h, ref)
  let l1 := readRef p1.1 p1.2
  if searchTerm ≠ "" then
    allocRef p1.1 (l1.filter (fun lg => strContains (lowerStr lg.message) searchTerm))
  else p1

-- ===========================================================================
-- Settings: the testConnection click handler (src/app.js lines 708-729)
-- ===========================================================================

/-- `document.getElementById('apiEndpointInput').value || AppState.apiEndpoint`:
the candidate endpoint, falling back to the configured one when the input is
empty (JS truthiness on strings). -/
def candidateEndpoint (inputValue : String) (st : AppState) : String :=
  if inputValue ≠ "" then inputValue else st.apiEndpoint

/-- The `testConnection` click handler: commit the candidate endpoint into
`AppState`, probe it with `checkHealth`, and restore the original endpoint on
failure.  Returns the final state, the probe result, and the message shown in
the result div. -/
def testConnectionClick {α : Type} (inputValue : String) (st : AppState)
    (net : String → NetResult α) (elapsed : Nat) :
    AppState × HealthResult α × String :=
  let endpoint := candidateEndpoint inputValue st
  let originalEndpoint := st.apiEndpoint
  let st1 := { st with apiEndpoint := endpoint }
  let result := checkHealth st1.apiEndpoint net elapsed
  if result.success then
    let rt := result.responseTime.getD 0
    (st1, result, s!"Connection successful! Response time: {rt}ms")
  else
    let errMsg := result.error.getD ""
    ({ st1 with apiEndpoint := originalEndpoint }, result,
     s!"Connection failed: {errMsg}")

-- ===========================================================================
-- Claim theorems
-- ===========================================================================

/-- Claim C1: with demo mode off, a failed network request (transport error or
non-success HTTP status) makes every resource fetch function return the
built-in mock value for its kind (after issuing its one request).  The
functions are total, so no exception reaches the caller on this path. -/
theorem fetch_fallback_on_failure (st : AppState) (hd : st.demoMode = false) :
    (∀ net : NetResult Metrics, netFailed net = true →
        fetchMetrics st net = (MockData.metrics, 1)) ∧
    (∀ net : NetResult (List Connection), netFailed net = true →
        fetchConnections st net = (MockData.connections, 1)) ∧
    (∀ net : NetResult (List Tool), netFailed net = true →
        fetchTools st net = (MockData.tools, 1)) ∧
    (∀ net : NetResult (List LogEntry), netFailed net = true →
        fetchLogs st net = (MockData.logs, 1)) := by
  refine ⟨?_, ?_, ?_, ?_⟩ <;>
  · intro net h
    cases net with
    | transportError msg =>
        simp [fetchMetrics, fetchConnections, fetchTools, fetchLogs,
          fetchBody, hd]
    | response ok body =>
        simp only [netFailed, Bool.not_eq_eq_eq_not, Bool.not_true] at h
        simp [fetchMetrics, fetchConnections, fetchTools, fetchLogs,
          fetchBody, hd, h]

/-- Witness for C1: a transport error and a non-success status, demo mode
off. -/
theorem fetch_fallback_on_failure_witness :
    fetchMetrics ⟨"http://localhost:8000", 5000, true, false⟩
        (.transportError "NetworkError") = (MockData.metrics, 1) ∧
    fetchLogs ⟨"http://localhost:8000", 5000, true, false⟩
        (.response false []) = (MockData.logs, 1) :=
  ⟨(fetch_fallback_on_failure ⟨"http://localhost:8000", 5000, true, false⟩
      rfl).1 _ rfl,
   (fetch_fallback_on_failure ⟨"http://localhost:8000", 5000, true, false⟩
      rfl).2.2.2 _ rfl⟩

/-- Claim C2: with demo mode on, every resource fetch function returns its
built-in mock value with zero network requests, whatever the network would
have answered (hence deterministically), and the path cannot fail (the
functions are total). -/
theorem fetch_demo_mode_returns_mock (st : AppState)
    (hd : st.demoMode = true) :
    (∀ net, fetchMetrics st net = (MockData.metrics, 0)) ∧
    (∀ net, fetchConnections st net = (MockData.connections, 0)) ∧
    (∀ net, fetchTools st net = (MockData.tools, 0)) ∧
    (∀ net, fetchLogs st net = (MockData.logs, 0)) := by
  refine ⟨?_, ?_, ?_, ?_⟩ <;>
  · intro net
    simp [fetchMetrics, fetchConnections, fetchTools, fetchLogs, hd]

/-- Witness for C2: demo mode on, even a failing network is never consulted. -/
theorem fetch_demo_mode_returns_mock_witness :
    fetchMetrics ⟨"http://localhost:8000", 5000, true, true⟩
        (.transportError "NetworkError") = (MockData.metrics, 0) ∧
    fetchTools ⟨"http://localhost:8000", 5000, true, true⟩
        (.response true []) = (MockData.tools, 0) :=
  ⟨(fetch_demo_mode_returns_mock ⟨"http://localhost:8000", 5000, true, true⟩
      rfl).1 _,
   (fetch_demo_mode_returns_mock ⟨"http://localhost:8000", 5000, true, true⟩
      rfl).2.2.1 _⟩

/-- Claim C3: the health probe always returns the structured record
`{success, responseTime?, data?, error?}`: on a success response, `success`
is true with the measured latency and the body; on a non-success response or
a transport failure, `success` is false with an error message and `data` is
`none` — it never substitutes mock data. -/
theorem checkHealth_structured_result {α : Type} (endpoint : String)
    (net : String → NetResult α) (elapsed : Nat) :
    (∀ body, net (endpoint ++ "/health") = .response true body →
        checkHealth endpoint net elapsed =
          { success := true, responseTime := some elapsed,
            data := some body, error := none }) ∧
    (∀ body, net (endpoint ++ "/health") = .response false body →
        checkHealth endpoint net elapsed =
          { success := false, responseTime := none, data := none,
            error := some "Health check failed" }) ∧
    (∀ msg, net (endpoint ++ "/health") = .transportError msg →
        checkHealth endpoint net elapsed =
          { success := false, responseTime := none, data := none,
            error := some msg }) := by
  refine ⟨?_, ?_, ?_⟩ <;>
  · intro x h
    simp [checkHealth, h]

/-- Witness for C3: a successful probe and a refused one. -/
theorem checkHealth_structured_result_witness :
    checkHealth "http://localhost:8000"
        (fun _ => NetResult.response true MockData.metrics) 12 =
      { success := true, responseTime := some 12,
        data := some MockData.metrics, error := none } ∧
    checkHealth (α := Metrics) "http://localhost:8000"
        (fun _ => NetResult.transportError "ECONNREFUSED") 0 =
      { success := false, responseTime := none, data := none,
        error := some "ECONNREFUSED" } :=
  ⟨(checkHealth_structured_result "http://localhost:8000"
      (fun _ => NetResult.response true MockData.metrics) 12).1 _ rfl,
   (checkHealth_structured_result "http://localhost:8000"
      (fun _ => NetResult.transportError "ECONNREFUSED") 0).2.2 _ rfl⟩

/-- Claim C10: the test-connection handler probes the candidate endpoint (it
writes the candidate into the state before the probe, and the probe result is
exactly `checkHealth` of the candidate); on a failed probe the whole state —
in particular `apiEndpoint` — is restored to its prior value, and on a
successful probe the candidate stays committed. -/
theorem testConnection_restores_endpoint {α : Type} (inputValue : String)
    (st : AppState) (net : String → NetResult α) (elapsed : Nat) :
    (testConnectionClick inputValue st net elapsed).2.1 =
        checkHealth (candidateEndpoint inputValue st) net elapsed ∧
    ((checkHealth (candidateEndpoint inputValue st) net elapsed).success =
        false →
      (testConnectionClick inputValue st net elapsed).1 = st) ∧
    ((checkHealth (candidateEndpoint inputValue st) net elapsed).success =
        true →
      (testConnectionClick inputValue st net elapsed).1 =
        { st with apiEndpoint := candidateEndpoint inputValue st }) := by
  cases h : (checkHealth (candidateEndpoint inputValue st) net elapsed).success
  · refine ⟨?_, fun _ => ?_, fun hc => by simp [h] at hc⟩ <;>
      simp [testConnectionClick, h]
  · refine ⟨?_, fun hc => by simp [h] at hc, fun _ => ?_⟩ <;>
      simp [testConnectionClick, h]

/-- Witness for C10: a refused probe restores the endpoint, a successful one
commits it. -/
theorem testConnection_restores_endpoint_witness :
    (testConnectionClick "http://candidate:9000"
        ⟨"http://localhost:8000", 5000, true, false⟩
        (fun _ => NetResult.transportError "ECONNREFUSED") 0
        (α := Metrics)).1 =
      ⟨"http://localhost:8000", 5000, true, false⟩ ∧
    (testConnectionClick "http://candidate:9000"
        ⟨"http://localhost:8000", 5000, true, false⟩
        (fun _ => NetResult.response true MockData.metrics) 7).1 =
      ⟨"http://candidate:9000", 5000, true, false⟩ :=
  ⟨(testConnection_restores_endpoint "http://candidate:9000"
      ⟨"http://localhost:8000", 5000, true, false⟩
      (fun _ => NetResult.transportError "ECONNREFUSED") 0).2.1 rfl,
   (testConnection_restores_endpoint "http://candidate:9000"
      ⟨"http://localhost:8000", 5000, true, false⟩
      (fun _ => NetResult.response true MockData.metrics) 7).2.2 rfl⟩

/-- Claim C9: `formatDuration` renders `h`/`m` when at least an hour,
`m`/`s` when between a minute and an hour, bare seconds below a minute, with
the claimed values at 3600, 125 and 45 and at the boundaries. -/
theorem formatDuration_spec :
    (∀ s : Nat, 3600 ≤ s →
        formatDuration s =
          toString (s / 3600) ++ "h " ++ toString (s % 3600 / 60) ++ "m") ∧
    (∀ s : Nat, 60 ≤ s → s < 3600 →
        formatDuration s =
          toString (s / 60) ++ "m " ++ toString (s % 60) ++ "s") ∧
    (∀ s : Nat, s < 60 → formatDuration s = toString s ++ "s") ∧
    formatDuration 3600 = "1h 0m" ∧ formatDuration 125 = "2m 5s" ∧
    formatDuration 45 = "45s" ∧ formatDuration 0 = "0s" ∧
    formatDuration 60 = "1m 0s" ∧ formatDuration 3599 = "59m 59s" ∧
    formatDuration 7200 = "2h 0m" := by
  refine ⟨?_, ?_, ?_, rfl, rfl, rfl, rfl, rfl, rfl, rfl⟩
  · intro s hs
    have h1 : 0 < s / 3600 := Nat.div_pos hs (by norm_num)
    simp [formatDuration, h1, toString, String.append_assoc]
  · intro s h60 h3600
    have h0 : s / 3600 = 0 := Nat.div_eq_of_lt h3600
    have hm : s % 3600 = s := Nat.mod_eq_of_lt h3600
    have h1 : 0 < s / 60 := Nat.div_pos h60 (by norm_num)
    simp [formatDuration, h0, hm, h1, toString, String.append_assoc]
  · intro s h60
    have h0 : s / 3600 = 0 := Nat.div_eq_of_lt (by omega)
    have hm : s % 3600 = s := Nat.mod_eq_of_lt (by omega)
    have h1 : s / 60 = 0 := Nat.div_eq_of_lt h60
    have h2 : s % 60 = s := Nat.mod_eq_of_lt h60
    simp [formatDuration, h0, hm, h1, h2, toString, String.append_assoc]

/-- Witness for C9: one input in each of the three branches. -/
theorem formatDuration_spec_witness :
    formatDuration 7325 =
        toString (7325 / 3600) ++ "h " ++ toString (7325 % 3600 / 60) ++ "m" ∧
    formatDuration 125 =
        toString (125 / 60) ++ "m " ++ toString (125 % 60) ++ "s" ∧
    formatDuration 45 = toString 45 ++ "s" :=
  ⟨formatDuration_spec.1 7325 (by norm_num),
   formatDuration_spec.2.1 125 (by norm_num) (by norm_num),
   formatDuration_spec.2.2.1 45 (by norm_num)⟩

/-- Claim C7: the connections filter equals the pointwise status predicate
(everything when the filter is `"all"`), is order-preserving (a sublist of
its input), and on the three sample connections with filter `"connected"`
yields exactly `conn_001, conn_003` in original order. -/
theorem connectionsFilter_status :
    (∀ (f : String) (conns : List Connection),
        filterConnections f conns =
          conns.filter (fun c => f == "all" || c.status == f)) ∧
    (∀ (f : String) (conns : List Connection),
        (filterConnections f conns).Sublist conns) ∧
    (filterConnections "connected" MockData.connections).map Connection.id =
      ["conn_001", "conn_003"] := by
  have hmain : ∀ (f : String) (conns : List Connection),
      filterConnections f conns =
        conns.filter (fun c => f == "all" || c.status == f) := by
    intro f conns
    by_cases hf : f = "all"
    · subst hf
      simp [filterConnections]
    · have hfb : (f == "all") = false := by simp [hf]
      simp [filterConnections, hf, hfb]
  refine ⟨hmain, ?_, by decide⟩
  intro f conns
  rw [hmain]
  exact List.filter_sublist _

/-- The empty search string matches every message (`"".includes`-style). -/
lemma strContains_empty_sub (s : String) : strContains s "" = true := by
  show containsSub "".toList s.toList = true
  cases h : s.toList with
  | nil => rfl
  | cons c tl => simp [containsSub, startsWithL]

/-- Claim C6: the logs filter keeps exactly the entries whose level matches
the selected filter (everything when `"all"`) and whose message
case-insensitively contains the search substring; the empty substring
matches every entry; and on the four sample logs, level `"WARNING"` with
search `"response"` yields exactly the high-response-time entry. -/
theorem logsFilter_level_and_search :
    (∀ (levelFilter searchRaw : String) (logs : List LogEntry),
        filterLogs levelFilter searchRaw logs =
          logs.filter (fun lg =>
            (levelFilter == "all" || lg.level == levelFilter) &&
              strContains (lowerStr lg.message) (lowerStr searchRaw))) ∧
    (∀ s : String, strContains s "" = true) ∧
    filterLogs "WARNING" "response" MockData.logs =
      [{ timestamp := "2025-11-01T10:43:01Z", level := "WARNING",
         message := "High response time detected: 1200ms" }] := by
  refine ⟨?_, strContains_empty_sub, by decide⟩
  intro lf sr logs
  by_cases hlf : lf = "all"
  · subst hlf
    by_cases hsr : lowerStr sr = "" <;>
      simp [filterLogs, hsr, strContains_empty_sub]
  · have hfb : (lf == "all") = false := by simp [hlf]
    by_cases hsr : lowerStr sr = ""
    · simp [filterLogs, hlf, hsr, hfb, strContains_empty_sub]
    · simp [filterLogs, hlf, hsr, hfb, List.filter_filter]
      refine List.filter_congr ?_
      intro a _
      rw [Bool.and_comm]

/-- Under the invariant, a `start` with auto-refresh enabled leaves exactly
one live timer, freshly allocated and recorded. -/
lemma startAutoRefresh_true_eq (w : TimerWorld) (h : TimerInv w) :
    startAutoRefresh true w = ⟨[w.nextId], w.nextId + 1, some w.nextId⟩ := by
  obtain ⟨lt, ni, ri⟩ := w
  rcases h with h0 | ⟨id, hl, hr⟩
  · simp only at h0
    subst h0
    cases ri <;> simp [startAutoRefresh, clearTimer]
  · simp only at hl hr
    subst hl
    subst hr
    simp [startAutoRefresh, clearTimer]

/-- Under the invariant, a `start` with auto-refresh disabled clears all
live timers. -/
lemma startAutoRefresh_false_eq (w : TimerWorld) (h : TimerInv w) :
    startAutoRefresh false w = { w with liveTimers := [] } := by
  obtain ⟨lt, ni, ri⟩ := w
  rcases h with h0 | ⟨id, hl, hr⟩
  · simp only at h0
    subst h0
    cases ri <;> simp [startAutoRefresh, clearTimer]
  · simp only at hl hr
    subst hl
    subst hr
    simp [startAutoRefresh, clearTimer]

/-- Under the invariant, `stop` clears all live timers and nulls the
record. -/
lemma stopAutoRefresh_eq (w : TimerWorld) (h : TimerInv w) :
    stopAutoRefresh w =
      { w with liveTimers := [], refreshInterval := none } := by
  obtain ⟨lt, ni, ri⟩ := w
  rcases h with h0 | ⟨id, hl, hr⟩
  · simp only at h0
    subst h0
    cases ri <;> simp [stopAutoRefresh, clearTimer]
  · simp only at hl hr
    subst hl
    subst hr
    simp [stopAutoRefresh, clearTimer]

/-- Claim C4: the scheduler keeps at most one live timer: `start` preserves
the invariant (it cancels any recorded timer before scheduling), two `start`s
in a row leave exactly one live timer, `start` with auto-refresh disabled
leaves no live timer, and `stop` is a no-op when already stopped and
idempotent in general. -/
theorem autoRefresh_single_timer (b : Bool) (w : TimerWorld)
    (h : TimerInv w) :
    TimerInv (startAutoRefresh b w) ∧
    TimerInv (stopAutoRefresh w) ∧
    (startAutoRefresh b w).liveTimers.length ≤ 1 ∧
    (startAutoRefresh true (startAutoRefresh true w)).liveTimers.length = 1 ∧
    (startAutoRefresh false w).liveTimers = [] ∧
    (w.refreshInterval = none → stopAutoRefresh w = w) ∧
    stopAutoRefresh (stopAutoRefresh w) = stopAutoRefresh w := by
  have hs := startAutoRefresh_true_eq w h
  have hf := startAutoRefresh_false_eq w h
  have hst := stopAutoRefresh_eq w h
  have h2 : TimerInv (startAutoRefresh true w) := by
    rw [hs]
    exact Or.inr ⟨w.nextId, rfl, rfl⟩
  refine ⟨?_, ?_, ?_, ?_, ?_, ?_, ?_⟩
  · cases b
    · rw [hf]
      exact Or.inl rfl
    · rw [hs]
      exact Or.inr ⟨w.nextId, rfl, rfl⟩
  · rw [hst]
    exact Or.inl rfl
  · cases b
    · rw [hf]
      simp
    · rw [hs]
      simp
  · rw [startAutoRefresh_true_eq _ h2]
    simp
  · rw [hf]
  · intro hn
    simp [stopAutoRefresh, hn]
  · rw [hst]
    simp [stopAutoRefresh]

/-- Witness for C4 from the freshly initialized timer state. -/
theorem autoRefresh_single_timer_witness :
    TimerInv (startAutoRefresh true (⟨[], 1, none⟩ : TimerWorld)) ∧
    (startAutoRefresh true
        (startAutoRefresh true (⟨[], 1, none⟩ : TimerWorld))).liveTimers.length = 1 ∧
    (startAutoRefresh false (⟨[], 1, none⟩ : TimerWorld)).liveTimers = [] :=
  ⟨(autoRefresh_single_timer true ⟨[], 1, none⟩ (Or.inl rfl)).1,
   (autoRefresh_single_timer true ⟨[], 1, none⟩ (Or.inl rfl)).2.2.2.1,
   (autoRefresh_single_timer false ⟨[], 1, none⟩ (Or.inl rfl)).2.2.2.2.1⟩

/-- Stability of `orderedInsert` for a key-based comparator: inserting `x`
leaves the sub-sequence of any fixed key unchanged except that `x`, when it
has that key, lands in front — elements skipped over by the insertion are
exactly those with strictly "smaller" comparator rank, hence a different
key. -/
lemma orderedInsert_filter_key {α β : Type} [DecidableEq β] (key : α → β)
    (r : α → α → Prop) [DecidableRel r]
    (hk : ∀ x y, ¬ r x y → key x ≠ key y) (x : α) (k : β) :
    ∀ l : List α,
      (l.orderedInsert r x).filter (fun a => key a == k) =
        if key x == k then x :: l.filter (fun a => key a == k)
        else l.filter (fun a => key a == k) := by
  intro l
  induction l with
  | nil =>
      by_cases hx : (key x == k) = true <;>
        simp [List.orderedInsert, List.filter, hx]
  | cons y ys ih =>
      by_cases hr : r x y
      · rw [List.orderedInsert, if_pos hr]
        by_cases hx : (key x == k) = true <;>
          simp [List.filter_cons, hx]
      · rw [List.orderedInsert, if_neg hr]
        have hky : key x ≠ key y := hk x y hr
        by_cases hx : (key x == k) = true
        · have hxk : key x = k := by simpa using hx
          have hy : (key y == k) = false := by
            refine beq_eq_false_iff_ne.mpr ?_
            intro hyk
            exact hky (hxk.trans hyk.symm)
          simp [List.filter_cons, hy, ih, hx]
        · simp [List.filter_cons, ih, hx]

/-- Stability of `insertionSort` for a key-based comparator: the
sub-sequence of elements with any fixed key is preserved, i.e. ties keep
their original relative order. -/
lemma insertionSort_filter_key {α β : Type} [DecidableEq β] (key : α → β)
    (r : α → α → Prop) [DecidableRel r]
    (hk : ∀ x y, ¬ r x y → key x ≠ key y) (k : β) :
    ∀ l : List α,
      (l.insertionSort r).filter (fun a => key a == k) =
        l.filter (fun a => key a == k) := by
  intro l
  induction l with
  | nil => rfl
  | cons x xs ih =>
      rw [List.insertionSort, orderedInsert_filter_key key r hk, ih]
      by_cases hx : (key x == k) = true <;> simp [List.filter_cons, hx]

/-- Claim C5: each tools sort mode is a permutation of its input, totally
ordered as claimed (non-increasing `call_count` for `"calls"`,
lexicographically non-decreasing name for `"name"`, non-increasing
`success_rate` for `"success"`), and stable (the sub-sequence at any fixed
sort key is preserved); the two-element example sorts as claimed. -/
theorem toolsSort_total_stable :
    (∀ l : List Tool,
        (sortTools "calls" l).Perm l ∧
        (sortTools "calls" l).Pairwise
          (fun a b => b.call_count ≤ a.call_count) ∧
        ∀ k : Nat,
          (sortTools "calls" l).filter (fun t => t.call_count == k) =
            l.filter (fun t => t.call_count == k)) ∧
    (∀ l : List Tool,
        (sortTools "name" l).Perm l ∧
        (sortTools "name" l).Pairwise
          (fun a b => a.name.toList ≤ b.name.toList) ∧
        ∀ k : String,
          (sortTools "name" l).filter (fun t => t.name == k) =
            l.filter (fun t => t.name == k)) ∧
    (∀ l : List Tool,
        (sortTools "success" l).Perm l ∧
        (sortTools "success" l).Pairwise
          (fun a b => b.success_rate ≤ a.success_rate) ∧
        ∀ k : Nat,
          (sortTools "success" l).filter (fun t => t.success_rate == k) =
            l.filter (fun t => t.success_rate == k)) ∧
    sortTools "calls"
        [{ name := "b", description := "", call_count := 5,
           success_rate := 0, avg_response_time := 0 },
         { name := "a", description := "", call_count := 10,
           success_rate := 0, avg_response_time := 0 }] =
      [{ name := "a", description := "", call_count := 10,
         success_rate := 0, avg_response_time := 0 },
       { name := "b", description := "", call_count := 5,
         success_rate := 0, avg_response_time := 0 }] := by
  refine ⟨fun l => ⟨?_, ?_, fun k => ?_⟩, fun l => ⟨?_, ?_, fun k => ?_⟩,
    fun l => ⟨?_, ?_, fun k => ?_⟩, by decide⟩
  · exact List.perm_insertionSort callsLe l
  · exact List.sorted_insertionSort callsLe l
  · exact insertionSort_filter_key Tool.call_count callsLe
      (fun x y h heq => h (le_of_eq heq.symm)) k l
  · exact List.perm_insertionSort nameLe l
  · exact List.sorted_insertionSort nameLe l
  · exact insertionSort_filter_key Tool.name nameLe
      (fun x y h heq => h (le_of_eq (congrArg String.toList heq))) k l
  · exact List.perm_insertionSort successLe l
  · exact List.sorted_insertionSort successLe l
  · exact insertionSort_filter_key Tool.success_rate successLe
      (fun x y h heq => h (le_of_eq heq.symm)) k l

/-- Reads of pre-existing references are unaffected by appended
allocations. -/
lemma readRef_append {α : Type} (h t : Heap α) (r : Nat) (hr : r < h.length) :
    readRef (h ++ t) r = readRef h r :=
  List.getD_append h t [] r hr

/-- Reading a freshly allocated reference yields the allocated value. -/
lemma readRef_concat {α : Type} (h : Heap α) (v : List α) :
    readRef (h ++ [v]) h.length = v := by
  unfold readRef
  rw [List.getD_append_right h [v] [] h.length (le_refl _)]
  simp

/-- Writing the freshly allocated (last) cell replaces only that cell. -/
lemma set_concat {α : Type} (h : Heap α) (v w : List α) :
    (h ++ [v]).set h.length w = h ++ [w] := by
  induction h with
  | nil => rfl
  | cons a t ih => simp [List.cons_append, ih]

/-- `updateToolsGrid` only allocates a copy and sorts the copy in place. -/
lemma updateToolsGridH_eq (sortBy : String) (ht : Heap Tool) (rt : Nat) :
    updateToolsGridH sortBy ht rt =
      (ht ++ [sortTools sortBy (readRef ht rt)], ht.length) := by
  unfold updateToolsGridH allocRef writeRef
  dsimp only
  rw [readRef_concat, set_concat]

/-- Counterexample to C8 as stated: with filter `"all"` (and an empty search
for the logs), the connections and logs pipelines hand the renderer the input
array itself — the returned reference is the input reference and the heap is
unchanged, so no new sequence is produced at that filter state. -/
theorem pipeline_all_filter_aliases_input :
    (updateConnectionsTableH "all" [MockData.connections] 0).2 = 0 ∧
    (updateConnectionsTableH "all" [MockData.connections] 0).1 =
      [MockData.connections] ∧
    (updateLogsContainerH "all" "" [MockData.logs] 0).2 = 0 ∧
    (updateLogsContainerH "all" "" [MockData.logs] 0).1 = [MockData.logs] := by
  refine ⟨?_, ?_, ?_, ?_⟩ <;> decide

/-- Claim C8 (amended): each pipeline function leaves every pre-existing
array — in particular its input collection — unchanged (same elements, same
order), and the sequence it hands to the renderer is exactly the pure
filter/sort of the input contents.  The tools pipeline always renders a
reference distinct from its input (the `[...tools]` copy); the connections
and logs pipelines render a fresh reference whenever at least one filter is
actually applied, and with an `"all"` filter (and empty search) pass the
input array itself through, unmutated. -/
theorem pipeline_preserves_input (sortBy f lf sr : String)
    (ht : Heap Tool) (rt : Nat) (hc : Heap Connection) (rc : Nat)
    (hl : Heap LogEntry) (rl : Nat) :
    (∀ r, r < ht.length →
        readRef (updateToolsGridH sortBy ht rt).1 r = readRef ht r) ∧
    readRef (updateToolsGridH sortBy ht rt).1
        (updateToolsGridH sortBy ht rt).2 =
      sortTools sortBy (readRef ht rt) ∧
    (rt < ht.length → (updateToolsGridH sortBy ht rt).2 ≠ rt) ∧
    (∀ r, r < hc.length →
        readRef (updateConnectionsTableH f hc rc).1 r = readRef hc r) ∧
    readRef (updateConnectionsTableH f hc rc).1
        (updateConnectionsTableH f hc rc).2 =
      filterConnections f (readRef hc rc) ∧
    (∀ r, r < hl.length →
        readRef (updateLogsContainerH lf sr hl rl).1 r = readRef hl r) ∧
    readRef (updateLogsContainerH lf sr hl rl).1
        (updateLogsContainerH lf sr hl rl).2 =
      filterLogs lf sr (readRef hl rl) ∧
    (f ≠ "all" → rc < hc.length →
        (updateConnectionsTableH f hc rc).2 ≠ rc) ∧
    (f = "all" → (updateConnectionsTableH f hc rc).2 = rc) ∧
    ((lf ≠ "all" ∨ lowerStr sr ≠ "") → rl < hl.length →
        (updateLogsContainerH lf sr hl rl).2 ≠ rl) ∧
    (lf = "all" → lowerStr sr = "" →
        (updateLogsContainerH lf sr hl rl).2 = rl) := by
  refine ⟨?_, ?_, ?_, ?_, ?_, ?_, ?_, ?_, ?_, ?_, ?_⟩
  · intro r hr
    rw [updateToolsGridH_eq]
    exact readRef_append ht _ r hr
  · rw [updateToolsGridH_eq]
    exact readRef_concat ht _
  · intro hr
    rw [updateToolsGridH_eq]
    exact Nat.ne_of_gt hr
  · intro r hr
    by_cases hf : f = "all"
    · simp [updateConnectionsTableH, hf]
    · simp only [updateConnectionsTableH, if_pos (by exact hf : f ≠ "all")]
      exact readRef_append hc _ r hr
  · by_cases hf : f = "all"
    · simp [updateConnectionsTableH, filterConnections, hf]
    · simp only [updateConnectionsTableH, filterConnections,
        if_pos (by exact hf : f ≠ "all")]
      exact readRef_concat hc _
  · intro r hr
    by_cases hlf : lf = "all" <;> by_cases hsr : lowerStr sr = ""
    · simp [updateLogsContainerH, hlf, hsr]
    · simp only [updateLogsContainerH, hlf, hsr, if_neg (by simp : ¬("all" : String) ≠ "all"),
        if_pos (by exact hsr : lowerStr sr ≠ "")]
      exact readRef_append hl _ r hr
    · simp only [updateLogsContainerH, if_pos (by exact hlf : lf ≠ "all"),
        if_neg (by simpa using hsr : ¬lowerStr sr ≠ "")]
      exact readRef_append hl _ r hr
    · simp only [updateLogsContainerH, allocRef,
        if_pos (by exact hlf : lf ≠ "all"),
        if_pos (by exact hsr : lowerStr sr ≠ "")]
      rw [readRef_concat, List.append_assoc]
      exact readRef_append hl _ r hr
  · by_cases hlf : lf = "all" <;> by_cases hsr : lowerStr sr = ""
    · simp [updateLogsContainerH, filterLogs, hlf, hsr]
    · simp only [updateLogsContainerH, filterLogs, hlf,
        if_neg (by simp : ¬("all" : String) ≠ "all"),
        if_pos (by exact hsr : lowerStr sr ≠ "")]
      exact readRef_concat hl _
    · simp only [updateLogsContainerH, filterLogs,
        if_pos (by exact hlf : lf ≠ "all"),
        if_neg (by simpa using hsr : ¬lowerStr sr ≠ "")]
      exact readRef_concat hl _
    · simp only [updateLogsContainerH, filterLogs, allocRef,
        if_pos (by exact hlf : lf ≠ "all"),
        if_pos (by exact hsr : lowerStr sr ≠ "")]
      rw [readRef_concat, readRef_concat]
  · intro hf hrc
    simp only [updateConnectionsTableH, allocRef, if_pos hf]
    exact Nat.ne_of_gt hrc
  · intro hf
    subst hf
    simp [updateConnectionsTableH]
  · intro hor hrl
    have hge : hl.length ≤ (updateLogsContainerH lf sr hl rl).2 := by
      by_cases hlf : lf = "all"
      · rcases hor with h1 | h2
        · exact absurd hlf h1
        · simp only [updateLogsContainerH, allocRef, hlf,
            if_neg (by simp : ¬("all" : String) ≠ "all"), if_pos h2]
          exact le_refl _
      · by_cases hsr : lowerStr sr = ""
        · simp only [updateLogsContainerH, allocRef, if_pos hlf,
            if_neg (by simpa using hsr : ¬lowerStr sr ≠ "")]
          exact le_refl _
        · simp only [updateLogsContainerH, allocRef, if_pos hlf,
            if_pos hsr]
          simp
    exact Nat.ne_of_gt (lt_of_lt_of_le hrl hge)
  · intro hlf hsr
    subst hlf
    simp [updateLogsContainerH, hsr]

/-- Witness for C8 on singleton heaps holding the mock collections,
exercising both the non-mutation and the freshness conjuncts. -/
theorem pipeline_preserves_input_witness :
    readRef (updateToolsGridH "calls" [MockData.tools] 0).1 0 =
        readRef [MockData.tools] 0 ∧
    (updateToolsGridH "calls" [MockData.tools] 0).2 ≠ 0 ∧
    readRef (updateConnectionsTableH "connected" [MockData.connections] 0).1 0 =
        readRef [MockData.connections] 0 ∧
    readRef (updateLogsContainerH "WARNING" "response" [MockData.logs] 0).1 0 =
        readRef [MockData.logs] 0 ∧
    (updateConnectionsTableH "connected" [MockData.connections] 0).2 ≠ 0 ∧
    (updateLogsContainerH "WARNING" "response" [MockData.logs] 0).2 ≠ 0 ∧
    (updateConnectionsTableH "all" [MockData.connections] 0).2 = 0 :=
  ⟨(pipeline_preserves_input "calls" "connected" "WARNING" "response"
      [MockData.tools] 0 [MockData.connections] 0 [MockData.logs] 0).1 0
      (by decide),
   (pipeline_preserves_input "calls" "connected" "WARNING" "response"
      [MockData.tools] 0 [MockData.connections] 0 [MockData.logs] 0).2.2.1
      (by decide),
   (pipeline_preserves_input "calls" "connected" "WARNING" "response"
      [MockData.tools] 0 [MockData.connections] 0 [MockData.logs] 0).2.2.2.1 0
      (by decide),
   (pipeline_preserves_input "calls" "connected" "WARNING" "response"
      [MockData.tools] 0 [MockData.connections] 0 [MockData.logs] 0).2.2.2.2.2.1
      0 (by decide),
   (pipeline_preserves_input "calls" "connected" "WARNING" "response"
      [MockData.tools] 0 [MockData.connections] 0
      [MockData.logs] 0).2.2.2.2.2.2.2.1 (by decide) (by decide),
   (pipeline_preserves_input "calls" "connected" "WARNING" "response"
      [MockData.tools] 0 [MockData.connections] 0
      [MockData.logs] 0).2.2.2.2.2.2.2.2.2.1 (Or.inl (by decide)) (by decide),
   (pipeline_preserves_input "calls" "all" "WARNING" "response"
      [MockData.tools] 0 [MockData.connections] 0
      [MockData.logs] 0).2.2.2.2.2.2.2.2.1 rfl⟩
